import Mathlib

/-!
Shallow embedding of the verification backend of
`amazon-rekognition-identity-verification`: the Step Functions state machine
assembled in `backend/idplusselfie/idplusselfie_stack.py` and the step Lambda
handlers under `backend/lambda/`.  External collaborator results (Rekognition,
Textract, S3, DynamoDB, SES) are modelled as explicit inputs and explicit
state; the DynamoDB verification record is a Lean structure holding the
attributes the handlers read and write (an `Option` field models a possibly
absent attribute).  Decimal scores are modelled as rationals.
-/

namespace IdVerify

/-- A content-moderation label as stored by `moderate_image` in
`id_moderate_lambda.py` (name, quantized confidence, optional parent name). -/
structure ModerationLabel where
  Name : String
  Confidence : ℚ
  ParentName : Option String
deriving DecidableEq

/-- The `Labels` value persisted by the moderation step: the full label list
for the document (`dl_labels`) and for the selfie (`selfie_labels`). -/
structure ModerationLabelsPair where
  dl_labels : List ModerationLabel
  selfie_labels : List ModerationLabel
deriving DecidableEq

/-- The combined `moderation_results` value built in
`id_moderate_lambda.lambda_handler` (lines 129-135). -/
structure ModerationResults where
  Status : String
  Labels : ModerationLabelsPair
deriving DecidableEq

/-- One extracted ID-document field as produced by `extract_field_value` in
`id_analyze_lambda.py`: the detected text and its quantized confidence. -/
structure ExtractedField where
  text : String
  confidence : ℚ
deriving DecidableEq

/-- The result of the `compare_faces` helper in `id_compare_faces_lambda.py`:
whether Rekognition returned a face match and the quantized similarity score
(0 when no match).  The bounding-box and message fields, which no handler
decision reads, are elided. -/
structure ComparisonResult where
  Matched : Bool
  Similarity : ℚ
deriving DecidableEq

/-- The two resized-image S3 paths produced by `id_resize_lambda`. -/
structure ResizedPaths where
  dl : String
  selfie : String
deriving DecidableEq

/-- The DynamoDB verification record (table `VerificationTable`, partition key
`VerificationId`, sort key `Timestamp`).  Attributes written by the various
handlers are `Option`-valued (absent until the writing step runs); the
`Status` attribute is written at creation by `id_upload_lambda` and so is
always present. -/
structure Record where
  VerificationId : String
  Timestamp : ℚ
  Status : String
  TTL : Option ℚ := none
  UserEmail : Option String := none
  IdentificationS3Key : Option String := none
  IdentificationImageResizedS3Key : Option String := none
  SelfieImageS3Key : Option String := none
  SelfieImageResizedS3Key : Option String := none
  IdentificationExtension : Option String := none
  SelfieExtension : Option String := none
  LastUpdated : Option ℚ := none
  StateMachineStatus : Option String := none
  ModerationLabels : Option ModerationLabelsPair := none
  ModerationStatus : Option String := none
  ModeratedAt : Option ℚ := none
  IDAnalysisResults : Option (List (String × ExtractedField)) := none
  IDAnalysisStatus : Option String := none
  AnalyzedAt : Option ℚ := none
  DocumentType : Option String := none
  DocumentNumber : Option String := none
  FaceMatchResults : Option ComparisonResult := none
  FaceMatchConfidence : Option ℚ := none
  ResizedDLImageS3Key : Option String := none
  ResizedSelfieImageS3Key : Option String := none
  ResizedAt : Option ℚ := none
  ProcessingCompleted : Option ℚ := none
  ErrorMessage : Option String := none
deriving DecidableEq

namespace StateMachine

/-- The states of the Step Functions chain built in `idplusselfie_stack.py`
(construct ids `InitialState`, `ProcessVerification`, `ModerateImages`,
`CompareFaces`, `ResizeImages`, `SendSuccessEmail`, `SendFailureEmail`).
`AnalyzeID` stands for the task of `id_analyze_lambda.py`; the stack creates
no Step Functions task for that Lambda, so no chain state refers to it. -/
inductive Task where
  | InitialState
  | ProcessVerification
  | ModerateImages
  | AnalyzeID
  | CompareFaces
  | ResizeImages
  | SendSuccessEmail
  | SendFailureEmail
deriving DecidableEq

/-- Terminal outcome of a state-machine run: the `Succeed` state
(`SucceedState`) or the `Fail` state (`FailState`). -/
inductive Outcome where
  | SUCCEEDED
  | FAILED
deriving DecidableEq

/-- One run of the chain, as a function of the `success` booleans returned by
the moderate, compare-faces and resize Lambda invocations.  It mirrors
`chain = initial_state -> process_verification -> moderate_task ->
moderation_choice`, with `moderation_choice`, `comparison_choice` and
`resize_choice` branching on `$....Payload.success` and routing to
`send_failure_email -> fail_state` on `False`.  The result is the ordered
list of task/pass states entered, with the terminal outcome. -/
def runChain (moderation_success comparison_success resize_success : Bool) :
    List Task × Outcome :=
  let pre := [Task.InitialState, Task.ProcessVerification, Task.ModerateImages]
  if moderation_success then
    let afterCompare := pre ++ [Task.CompareFaces]
    if comparison_success then
      let afterResize := afterCompare ++ [Task.ResizeImages]
      if resize_success then
        (afterResize ++ [Task.SendSuccessEmail], Outcome.SUCCEEDED)
      else
        (afterResize ++ [Task.SendFailureEmail], Outcome.FAILED)
    else
      (afterCompare ++ [Task.SendFailureEmail], Outcome.FAILED)
  else
    (pre ++ [Task.SendFailureEmail], Outcome.FAILED)

end StateMachine

namespace SendEmail

/-- The fixed checklist items in the success branch of `get_email_content`
in `id_send_email_lambda.py` (lines 75-79): the success email always lists
these three checks as passed. -/
def success_email_checks : List String :=
  ["ID Document Validation", "Image Moderation", "Face Analysis"]

end SendEmail

open StateMachine in
/-- C1: if the moderation step returns `success = False`, the run executes
neither the face-comparison nor the resize task and goes directly from the
moderation task to the failure-notification task and the FAILED terminal
state; if moderation succeeds but comparison returns `success = False`, the
resize task is likewise skipped and the run goes directly to the
failure-notification task and FAILED. -/
theorem moderation_gate_ordering : ∀ (c r : Bool),
    (runChain false c r).1 =
      [Task.InitialState, Task.ProcessVerification, Task.ModerateImages,
       Task.SendFailureEmail] ∧
    Task.CompareFaces ∉ (runChain false c r).1 ∧
    Task.ResizeImages ∉ (runChain false c r).1 ∧
    (runChain false c r).2 = Outcome.FAILED ∧
    (runChain true false r).1 =
      [Task.InitialState, Task.ProcessVerification, Task.ModerateImages,
       Task.CompareFaces, Task.SendFailureEmail] ∧
    Task.ResizeImages ∉ (runChain true false r).1 ∧
    (runChain true false r).2 = Outcome.FAILED := by
  decide

open StateMachine in
/-- C10: no run of the deployed state machine ever enters a task for the
document-field extraction Lambda (`AnalyzeID`); the all-success run proceeds
initial, process, moderate, compare, resize, notify-success and reaches
SUCCEEDED without extraction ever executing, while the success email's fixed
checklist nevertheless lists the ID document validation check as passed. -/
theorem extraction_step_never_runs : ∀ (m c r : Bool),
    Task.AnalyzeID ∉ (runChain m c r).1 ∧
    (runChain true true true).2 = Outcome.SUCCEEDED ∧
    (runChain true true true).1 =
      [Task.InitialState, Task.ProcessVerification, Task.ModerateImages,
       Task.CompareFaces, Task.ResizeImages, Task.SendSuccessEmail] ∧
    "ID Document Validation" ∈ SendEmail.success_email_checks := by
  decide

namespace Moderate

/-- Response shape returned by `id_moderate_lambda.lambda_handler` on the
non-exception path (lines 147-152). -/
structure ModerateResponse where
  statusCode : Nat
  verification_id : String
  success : Bool
  moderation_results : ModerationResults
deriving DecidableEq

/-- The `update_dynamodb_record` of `id_moderate_lambda.py` (lines 51-102):
persists the full label pair and the moderation status, stamping
`LastUpdated` and `ModeratedAt`, leaving every other attribute unchanged. -/
def update_dynamodb_record (r : Record) (moderation_results : ModerationResults)
    (t : ℚ) : Record :=
  { r with ModerationLabels := some moderation_results.Labels,
           ModerationStatus := some moderation_results.Status,
           LastUpdated := some t,
           ModeratedAt := some t }

/-- The non-exception path of `id_moderate_lambda.lambda_handler`
(lines 104-152), given the label lists returned by the two `moderate_image`
collaborator calls on the document and the selfie.  The record is updated
before the pass/fail decision; `success` is the negation of
`concerning_labels`, which scans both label lists for a confidence strictly
above 80. -/
def lambda_handler (verification_id : String)
    (dl_moderation selfie_moderation : List ModerationLabel)
    (r : Record) (t : ℚ) : ModerateResponse × Record :=
  let moderation_results : ModerationResults :=
    ⟨"Moderation Labels Detected", ⟨dl_moderation, selfie_moderation⟩⟩
  let r1 := update_dynamodb_record r moderation_results t
  let concerning_labels :=
    (dl_moderation ++ selfie_moderation).any (fun label => decide (label.Confidence > 80))
  (⟨200, verification_id, !concerning_labels, moderation_results⟩, r1)

end Moderate

namespace Analyze

/-- The required fields of `id_analyze_lambda.lambda_handler` (line 178). -/
def required_fields : List String :=
  ["first_name", "last_name", "date_of_birth", "expiration_date"]

/-- The confidence threshold of `id_analyze_lambda.lambda_handler`
(line 179). -/
def confidence_threshold : ℚ := 90

/-- Field lookup in the extracted-fields map; a field that `analyze_id`
did not return is defaulted to empty text with confidence 0, as in
`extract_field_value` (lines 25-36). -/
def lookup_field (fields : List (String × ExtractedField)) (name : String) :
    ExtractedField :=
  match fields.find? (fun p => p.1 == name) with
  | some p => p.2
  | none => ⟨"", 0⟩

/-- Text lookup with a default, as in the `.get(...).get('text', 'UNKNOWN')`
accesses of `update_dynamodb_record` (lines 124-125). -/
def lookup_text_or (fields : List (String × ExtractedField)) (name dflt : String) :
    String :=
  match fields.find? (fun p => p.1 == name) with
  | some p => p.2.text
  | none => dflt

/-- The `update_dynamodb_record` of `id_analyze_lambda.py` (lines 86-143):
persists the whole extracted-fields map, the analysis status, document type
and number, stamping `LastUpdated` and `AnalyzedAt`. -/
def update_dynamodb_record (r : Record)
    (fields : List (String × ExtractedField)) (t : ℚ) : Record :=
  { r with IDAnalysisResults := some fields,
           IDAnalysisStatus := some "COMPLETED",
           LastUpdated := some t,
           AnalyzedAt := some t,
           DocumentType := some (lookup_text_or fields "id_type" "UNKNOWN"),
           DocumentNumber := some (lookup_text_or fields "document_number" "UNKNOWN") }

/-- Response shape of `id_analyze_lambda.lambda_handler`. -/
structure AnalyzeResponse where
  statusCode : Nat
  verification_id : String
  success : Bool
  error : Option String
deriving DecidableEq

/-- The non-exception path of `id_analyze_lambda.lambda_handler`
(lines 145-212): `none` models `analyze_id_document` finding no identity
document (response 400, no record update); otherwise the record is updated
first and `valid_id` then requires every required field to be present with
non-empty text and confidence at least the threshold. -/
def lambda_handler (verification_id : String)
    (analysis_results : Option (List (String × ExtractedField)))
    (r : Record) (t : ℚ) : AnalyzeResponse × Record :=
  match analysis_results with
  | none =>
      (⟨400, verification_id, false, some "No valid ID document found in image"⟩, r)
  | some fields =>
      let r1 := update_dynamodb_record r fields t
      let valid_id := required_fields.all (fun f =>
        decide ((lookup_field fields f).text ≠ "") &&
        decide ((lookup_field fields f).confidence ≥ confidence_threshold))
      (⟨200, verification_id, valid_id,
        if valid_id then none else some "One or more required fields failed validation"⟩,
       r1)

end Analyze

namespace CompareFaces

/-- The minimum similarity threshold of `id_compare_faces_lambda.lambda_handler`
(line 152). -/
def min_similarity_threshold : ℚ := 80

/-- The `update_status` of `id_compare_faces_lambda.py` (lines 26-73): writes
the `Status` attribute and `LastUpdated`, and, when comparison results are
passed, also `FaceMatchResults` and `FaceMatchConfidence` (the latter set to
the `Similarity` score). -/
def update_status (r : Record) (status : String)
    (comparison_results : Option ComparisonResult) (t : ℚ) : Record :=
  match comparison_results with
  | some results =>
      { r with Status := status,
               LastUpdated := some t,
               FaceMatchResults := some results,
               FaceMatchConfidence := some results.Similarity }
  | none => { r with Status := status, LastUpdated := some t }

/-- Response shape of `id_compare_faces_lambda.lambda_handler`. -/
structure CompareResponse where
  statusCode : Nat
  verification_id : String
  success : Bool
  status : String
deriving DecidableEq

/-- The non-exception path of `id_compare_faces_lambda.lambda_handler`
(lines 131-184), given the result of the `compare_faces` collaborator call:
sets status `COMPARING_FACES`, decides `success` as the match flag together
with `Similarity >= min_similarity_threshold` (line 154), then writes the
final status and the comparison results. -/
def lambda_handler (verification_id : String)
    (comparison_results : ComparisonResult) (r : Record) (t : ℚ) :
    CompareResponse × Record :=
  let r1 := update_status r "COMPARING_FACES" none t
  let success := comparison_results.Matched &&
    decide (comparison_results.Similarity ≥ min_similarity_threshold)
  let final_status := if success then "FACE_MATCH_SUCCESSFUL" else "FACE_MATCH_FAILED"
  let r2 := update_status r1 final_status (some comparison_results) t
  (⟨200, verification_id, success, final_status⟩, r2)

end CompareFaces

/-- A concrete freshly created verification record, as written by the upload
handler before any step runs. -/
def sample_record : Record :=
  { VerificationId := "v1", Timestamp := 0, Status := "PROCESSING" }

/-- C4: the moderation step screens the two images independently, reports
`success = False` exactly when some detected label on either image has
confidence strictly greater than 80, and persists the full label lists for
both images (and the moderation status) regardless of the outcome. -/
theorem moderation_gate_policy (vid : String)
    (dl selfie : List ModerationLabel) (r : Record) (t : ℚ) :
    ((Moderate.lambda_handler vid dl selfie r t).1.success = false ↔
      ∃ l ∈ dl ++ selfie, l.Confidence > 80) ∧
    (Moderate.lambda_handler vid dl selfie r t).2.ModerationLabels =
      some ⟨dl, selfie⟩ ∧
    (Moderate.lambda_handler vid dl selfie r t).2.ModerationStatus =
      some "Moderation Labels Detected" := by
  refine ⟨?_, rfl, rfl⟩
  show (!((dl ++ selfie).any fun label => decide (label.Confidence > 80))) = false ↔ _
  simp only [Bool.not_eq_false', List.any_eq_true, decide_eq_true_eq]

/-- C3: when the extraction step finds an identity document, it reports
`success = True` exactly when each of the four required fields is present
with non-empty text and confidence at least 90, and the extracted fields are
persisted to the record in either case. -/
theorem extraction_gate_policy (vid : String)
    (fields : List (String × ExtractedField)) (r : Record) (t : ℚ) :
    ((Analyze.lambda_handler vid (some fields) r t).1.success = true ↔
      ∀ f ∈ Analyze.required_fields,
        (Analyze.lookup_field fields f).text ≠ "" ∧
        (Analyze.lookup_field fields f).confidence ≥ Analyze.confidence_threshold) ∧
    (Analyze.lambda_handler vid (some fields) r t).2.IDAnalysisResults =
      some fields := by
  refine ⟨?_, rfl⟩
  simp [Analyze.lambda_handler, List.all_eq_true]

/-- C2 counterexample: a collaborator result that reports a match with
similarity exactly 80 makes the comparison step report `success = True`,
although 80 does not strictly exceed the 80 threshold — refuting the claim
that success requires the similarity to exceed the threshold. -/
theorem comparison_exact_threshold_cex :
    (CompareFaces.lambda_handler "v1" ⟨true, 80⟩ sample_record 1).1.success = true ∧
    ¬ ((80 : ℚ) > CompareFaces.min_similarity_threshold) := by
  constructor
  · decide
  · simp [CompareFaces.min_similarity_threshold]

/-- C2 amended: the comparison step reports `success = True` exactly when the
collaborator result reports a match and the similarity score is greater than
or equal to the 80 threshold (so similarity exactly 80 passes). -/
theorem comparison_gate_policy (vid : String) (res : ComparisonResult)
    (r : Record) (t : ℚ) :
    (CompareFaces.lambda_handler vid res r t).1.success = true ↔
      res.Matched = true ∧
      res.Similarity ≥ CompareFaces.min_similarity_threshold := by
  simp [CompareFaces.lambda_handler]

namespace Resize

/-- The `update_dynamodb_record` of `id_resize_lambda.py` (lines 57-115):
persists the resized-image paths, marks `StateMachineStatus` as
`COMPLETED_SUCCESSFUL`, stamps `LastUpdated`, `ResizedAt` and
`ProcessingCompleted`, and sets the final verification `Status` to
`VERIFIED`. -/
def update_dynamodb_record (r : Record) (resized_paths : ResizedPaths)
    (t : ℚ) : Record :=
  { r with ResizedDLImageS3Key := some resized_paths.dl,
           ResizedSelfieImageS3Key := some resized_paths.selfie,
           LastUpdated := some t,
           ResizedAt := some t,
           StateMachineStatus := some "COMPLETED_SUCCESSFUL",
           ProcessingCompleted := some t,
           Status := "VERIFIED" }

/-- The `update_failed_status` of `id_resize_lambda.py` (lines 117-162):
marks `StateMachineStatus` as `COMPLETED_FAILED`, records the error message
and sets the verification `Status` to `FAILED`. -/
def update_failed_status (r : Record) (error_message : String) (t : ℚ) :
    Record :=
  { r with StateMachineStatus := some "COMPLETED_FAILED",
           LastUpdated := some t,
           ErrorMessage := some error_message,
           Status := "FAILED" }

end Resize

/-- C5 counterexample: the face-comparison step's `update_status` does write
the record's `Status` attribute — on a freshly created record it moves
`Status` from `PROCESSING` to `COMPARING_FACES`, refuting the claim that the
comparison step never writes the status field. -/
theorem status_frame_cex :
    (CompareFaces.update_status sample_record "COMPARING_FACES" none 1).Status ≠
      sample_record.Status := by
  decide

/-- C5 amended: the moderation and extraction record updates leave the
`Status` attribute unchanged (they write only their own result and status
attributes), but the face-comparison step's `update_status` sets `Status` to
the status it is given, and the terminal resize step sets the final statuses
(`VERIFIED` with `StateMachineStatus = COMPLETED_SUCCESSFUL` on success,
`FAILED` with `COMPLETED_FAILED` on failure). -/
theorem status_frame_condition (r : Record) (mr : ModerationResults)
    (fields : List (String × ExtractedField)) (s : String)
    (c : Option ComparisonResult) (paths : ResizedPaths) (err : String)
    (t : ℚ) :
    (Moderate.update_dynamodb_record r mr t).Status = r.Status ∧
    (Analyze.update_dynamodb_record r fields t).Status = r.Status ∧
    (CompareFaces.update_status r s c t).Status = s ∧
    (Resize.update_dynamodb_record r paths t).Status = "VERIFIED" ∧
    (Resize.update_dynamodb_record r paths t).StateMachineStatus =
      some "COMPLETED_SUCCESSFUL" ∧
    (Resize.update_failed_status r err t).Status = "FAILED" ∧
    (Resize.update_failed_status r err t).StateMachineStatus =
      some "COMPLETED_FAILED" := by
  refine ⟨rfl, rfl, ?_, rfl, rfl, rfl, rfl⟩
  cases c <;> rfl

/-- One record-updating execution of a step Lambda, abstracted to the
DynamoDB write it performs; none of the update functions reads the current
status before writing. -/
inductive StepWrite where
  | moderate (results : ModerationResults) (t : ℚ)
  | analyze (fields : List (String × ExtractedField)) (t : ℚ)
  | compareStatus (status : String) (results : Option ComparisonResult) (t : ℚ)
  | resizeOk (paths : ResizedPaths) (t : ℚ)
  | resizeFail (err : String) (t : ℚ)
deriving DecidableEq

/-- Apply a step write to a record, via the corresponding update function of
the step's Lambda module. -/
def StepWrite.apply : StepWrite → Record → Record
  | .moderate results t, r => Moderate.update_dynamodb_record r results t
  | .analyze fields t, r => Analyze.update_dynamodb_record r fields t
  | .compareStatus s c t, r => CompareFaces.update_status r s c t
  | .resizeOk paths t, r => Resize.update_dynamodb_record r paths t
  | .resizeFail err t, r => Resize.update_failed_status r err t

/-- Terminal workflow status values, as stored in the `StateMachineStatus`
attribute by the resize step. -/
def is_terminal (s : Option String) : Bool :=
  s == some "COMPLETED_SUCCESSFUL" || s == some "COMPLETED_FAILED"

/-- A record that has reached the terminal failure state, with recorded
comparison results. -/
def terminal_record : Record :=
  { VerificationId := "v1", Timestamp := 0, Status := "FAILED",
    StateMachineStatus := some "COMPLETED_FAILED",
    FaceMatchResults := some ⟨false, 0⟩,
    ErrorMessage := some "Face verification failed" }

/-- C6 counterexample: on a record already in the terminal failed state, a
re-executed comparison-step write overwrites the stored comparison results
and moves the `Status` attribute to the non-terminal `COMPARING_FACES`; no
step update guards on the current status, refuting the claimed terminal
immutability. -/
theorem terminal_monotonicity_cex :
    is_terminal terminal_record.StateMachineStatus = true ∧
    (StepWrite.apply (.compareStatus "COMPARING_FACES" (some ⟨true, 95⟩) 2)
        terminal_record).FaceMatchResults ≠ terminal_record.FaceMatchResults ∧
    (StepWrite.apply (.compareStatus "COMPARING_FACES" (some ⟨true, 95⟩) 2)
        terminal_record).Status = "COMPARING_FACES" := by
  decide

/-- C6 amended: the only monotonicity the code provides is for the
`StateMachineStatus` attribute: once it holds a terminal value, every
sequence of step writes leaves it terminal (the moderation, extraction and
comparison updates never write it, and the resize updates write only
terminal values); the step result fields and the `Status` attribute are not
protected. -/
theorem terminal_status_monotone (es : List StepWrite) (r : Record)
    (h : is_terminal r.StateMachineStatus = true) :
    is_terminal
      ((es.foldl (fun acc e => StepWrite.apply e acc) r).StateMachineStatus) =
      true := by
  induction es generalizing r with
  | nil => exact h
  | cons e rest ih =>
      refine ih _ ?_
      cases e with
      | moderate results t => exact h
      | analyze fields t => exact h
      | compareStatus s c t => cases c <;> exact h
      | resizeOk paths t => rfl
      | resizeFail err t => rfl

/-- Witness for the amended C6 theorem at a concrete terminal record and a
concrete write sequence. -/
theorem terminal_status_monotone_witness :
    is_terminal terminal_record.StateMachineStatus = true ∧
    is_terminal
      (([StepWrite.compareStatus "COMPARING_FACES" (some ⟨true, 95⟩) 2,
         StepWrite.resizeOk ⟨"a", "b"⟩ 3].foldl
          (fun acc e => StepWrite.apply e acc) terminal_record).StateMachineStatus) =
      true :=
  ⟨by decide,
   terminal_status_monotone
     [StepWrite.compareStatus "COMPARING_FACES" (some ⟨true, 95⟩) 2,
      StepWrite.resizeOk ⟨"a", "b"⟩ 3] terminal_record (by decide)⟩

namespace Delete

/-- The shared stores the deletion handler can touch: the DynamoDB table
(list of records, returned by queries in ascending `Timestamp` order) and
the S3 upload bucket (set of object keys, as a list). -/
structure Store where
  table : List Record
  bucket : List String
deriving DecidableEq

/-- Response of `id_delete_lambda.lambda_handler`; the JSON body is modelled
by its `error` / `message` field. -/
structure DeleteResponse where
  statusCode : Nat
  error : Option String := none
  message : Option String := none
deriving DecidableEq

/-- The `lambda_handler` of `id_delete_lambda.py` (lines 16-79): a missing
`verificationId` query parameter yields 400; a `verificationId` with no
record yields 404 and changes nothing; otherwise the first queried item's
key is used to delete that record from the table.  The handler issues no S3
call, so the bucket is returned unchanged. -/
def lambda_handler (verificationId : Option String) (store : Store) :
    DeleteResponse × Store :=
  match verificationId with
  | none =>
      ({ statusCode := 400,
         error := some "Missing verificationId in the request" }, store)
  | some vid =>
      match store.table.filter (fun r => r.VerificationId == vid) with
      | [] =>
          ({ statusCode := 404,
             error := some ("No item found with VerificationId: " ++ vid) },
           store)
      | item :: _ =>
          let table' := store.table.filter
            (fun r => !((r.VerificationId == vid) && (r.Timestamp == item.Timestamp)))
          ({ statusCode := 200,
             message := some ("Verification with ID " ++ vid ++ " deleted successfully") },
           ⟨table', store.bucket⟩)

end Delete

/-- A record as created by the ingress handler for verification `v1`, with
both original images stored in the bucket. -/
def rec_v1 : Record :=
  { VerificationId := "v1", Timestamp := 5, Status := "PROCESSING",
    IdentificationS3Key := some "s3://bucket/identity/v1.jpg",
    SelfieImageS3Key := some "s3://bucket/selfie/v1.jpg" }

/-- A concrete store holding the `v1` record and its two uploaded images. -/
def store0 : Delete.Store :=
  ⟨[rec_v1], ["identity/v1.jpg", "selfie/v1.jpg"]⟩

/-- C7 counterexample: a successful deletion (status 200) of an existing
verification leaves both stored original image objects in the bucket — the
handler never deletes S3 objects, refuting the claim that it deletes both
images before deleting the record. -/
theorem deletion_images_cex :
    (Delete.lambda_handler (some "v1") store0).1.statusCode = 200 ∧
    "identity/v1.jpg" ∈ (Delete.lambda_handler (some "v1") store0).2.bucket ∧
    "selfie/v1.jpg" ∈ (Delete.lambda_handler (some "v1") store0).2.bucket := by
  decide

/-- C7 amended: for a `verification_id` with exactly one record the handler
deletes that record only — a subsequent query for the id finds no record,
the response is 200, and the stored image objects are left untouched (to
expire passively); for a `verification_id` with no record it returns a 404
distinct from a successful deletion, with no side effects. -/
theorem deletion_record_only (store : Delete.Store) (vid : String) :
    (∀ item : Record,
      store.table.filter (fun r => r.VerificationId == vid) = [item] →
        (Delete.lambda_handler (some vid) store).1.statusCode = 200 ∧
        (Delete.lambda_handler (some vid) store).2.table.filter
          (fun r => r.VerificationId == vid) = [] ∧
        (Delete.lambda_handler (some vid) store).2.bucket = store.bucket) ∧
    (store.table.filter (fun r => r.VerificationId == vid) = [] →
      (Delete.lambda_handler (some vid) store).1.statusCode = 404 ∧
      (Delete.lambda_handler (some vid) store).2 = store) := by
  constructor
  · intro item hone
    have hitem : (item.VerificationId == vid) = true := by
      have hmem : item ∈ store.table.filter (fun r => r.VerificationId == vid) := by
        rw [hone]; exact List.mem_singleton_self item
      exact (List.mem_filter.mp hmem).2
    simp only [Delete.lambda_handler]
    split
    · next heq => rw [hone] at heq; exact absurd heq (by simp)
    · next item' rest heq =>
        rw [hone] at heq
        injection heq with h1 h2
        subst h1; subst h2
        refine ⟨rfl, ?_, rfl⟩
        rw [List.filter_comm, hone]
        simp [hitem]
  · intro hnone
    simp only [Delete.lambda_handler]
    split
    · exact ⟨rfl, rfl⟩
    · next item' rest heq => rw [hnone] at heq; exact absurd heq (by simp)

/-- Witness for the amended C7 theorem: deleting the existing `v1` record
succeeds and leaves the bucket unchanged; deleting an unknown id yields 404
with the store unchanged. -/
theorem deletion_record_only_witness :
    ((Delete.lambda_handler (some "v1") store0).1.statusCode = 200 ∧
     (Delete.lambda_handler (some "v1") store0).2.table.filter
       (fun r => r.VerificationId == "v1") = [] ∧
     (Delete.lambda_handler (some "v1") store0).2.bucket = store0.bucket) ∧
    ((Delete.lambda_handler (some "zz") store0).1.statusCode = 404 ∧
     (Delete.lambda_handler (some "zz") store0).2 = store0) :=
  ⟨(deletion_record_only store0 "v1").1 rec_v1 (by decide),
   (deletion_record_only store0 "zz").2 (by decide)⟩

namespace Upload

/-- Membership in the base64 alphabet (ASCII letters, digits, `+`, `/`,
padding `=`). -/
def is_b64_char (c : Char) : Bool :=
  c.isAlphanum || c == '+' || c == '/' || c == '='

/-- Modelled behaviour of `base64.b64decode` with `validate=False`, as called
by `handle_api_request`: characters outside the base64 alphabet are
discarded, and decoding raises (modelled as `none`) when the count of
remaining characters is not a multiple of four; the decoded bytes are
abstracted as the retained character list. -/
def b64decode (s : String) : Option (List Char) :=
  let kept := s.toList.filter is_b64_char
  if kept.length % 4 == 0 then some kept else none

/-- Splits a character list at the first occurrence of `sep`, returning the
part before it and the part after it, or `none` when `sep` does not occur. -/
def find_marker (sep : List Char) : List Char → Option (List Char × List Char)
  | [] => none
  | c :: rest =>
      if sep.isPrefixOf (c :: rest) then some ([], (c :: rest).drop sep.length)
      else
        match find_marker sep rest with
        | some (pre, post) => some (c :: pre, post)
        | none => none

/-- Splits a character list on every occurrence of a single character, like
Python `str.split` with a one-character separator. -/
def split_char (sep : Char) : List Char → List (List Char)
  | [] => [[]]
  | c :: rest =>
      let r := split_char sep rest
      if c == sep then [] :: r
      else
        match r with
        | [] => [[c]]
        | h :: t => (c :: h) :: t

/-- The `get_file_info_from_base64` of `id_upload_lambda.py` (lines 57-71):
when the string contains a `;base64,` marker, the part before it is parsed
as `data:<mime-type>` metadata and the extension is taken from the mime
type (with `jpeg` renamed `jpg`); `none` models the `ValueError` raised by
the two-element tuple unpacking when the marker occurs more than once;
without usable metadata the original string and the default extension `jpg`
are returned. -/
def get_file_info_from_base64 (base64_data : String) :
    Option (String × String) :=
  match find_marker (";base64,".toList) base64_data.toList with
  | none => some (base64_data, "jpg")
  | some (metadata, base64_string) =>
      match find_marker (";base64,".toList) base64_string with
      | some _ => none
      | none =>
          if ("data:".toList).isPrefixOf metadata then
            let mime_type := (split_char ':' metadata).getD 1 []
            let extension := ((split_char '/' mime_type).getLastD []).asString
            let extension := if extension == "jpeg" then "jpg" else extension
            some (base64_string.asString, extension)
          else
            some (base64_data, "jpg")

/-- Composition of the two decoding stages the handler runs on each image
payload before any write: metadata stripping, then base64 decoding. -/
def decode_image (payload : String) : Option (List Char) :=
  match get_file_info_from_base64 payload with
  | some p => b64decode p.1
  | none => none

/-- An S3 object written by the ingress handler: key and decoded bytes. -/
structure S3Object where
  key : String
  body : List Char
deriving DecidableEq

/-- The stores the ingress handler writes: the verification table and the
upload bucket. -/
structure UploadStore where
  table : List Record
  bucket : List S3Object
deriving DecidableEq

/-- Response of the ingress handler; the JSON body is modelled field-wise
and the CORS headers are elided. -/
structure UploadResponse where
  statusCode : Nat
  error : Option String := none
  verificationId : Option String := none
  status : Option String := none
deriving DecidableEq

/-- The `handle_api_request` of `id_upload_lambda.py` (lines 73-150), with
the request body's two fields, the generated `verification_id`, the
timestamps, the caller identity and the bucket name as explicit inputs.  A
missing or empty (falsy) `selfie`/`identity` field raises `KeyError`, caught
as a 400; a failure of `get_file_info_from_base64` or `base64.b64decode`
(both run before any S3 or DynamoDB write) reaches the generic exception
handler, a 500; otherwise both images are stored under
verification-id-scoped keys and the initial record is written. -/
def handle_api_request (selfie identity : Option String)
    (verification_id : String) (timestamp ttl : ℚ)
    (user_email : Option String) (bucket_name : String)
    (store : UploadStore) : UploadResponse × UploadStore :=
  match selfie, identity with
  | some s, some i =>
      if s == "" || i == "" then
        ({ statusCode := 400,
           error := some "Missing required field: Missing selfie or identity in the request body" },
         store)
      else
        match get_file_info_from_base64 i, get_file_info_from_base64 s with
        | some (id_b64, id_extension), some (selfie_b64, selfie_extension) =>
            match b64decode id_b64, b64decode selfie_b64 with
            | some id_bytes, some selfie_bytes =>
                let id_key := "identity/" ++ verification_id ++ "." ++ id_extension
                let selfie_key := "selfie/" ++ verification_id ++ "." ++ selfie_extension
                let id_resized_key :=
                  "resized_id/" ++ verification_id ++ "." ++ id_extension
                let selfie_resized_key :=
                  "resized_selfie/" ++ verification_id ++ "." ++ selfie_extension
                let item : Record :=
                  { VerificationId := verification_id,
                    Status := "PROCESSING",
                    Timestamp := timestamp,
                    TTL := some ttl,
                    UserEmail := user_email,
                    IdentificationS3Key :=
                      some ("s3://" ++ bucket_name ++ "/" ++ id_key),
                    IdentificationImageResizedS3Key :=
                      some ("s3://" ++ bucket_name ++ "/" ++ id_resized_key),
                    SelfieImageS3Key :=
                      some ("s3://" ++ bucket_name ++ "/" ++ selfie_key),
                    SelfieImageResizedS3Key :=
                      some ("s3://" ++ bucket_name ++ "/" ++ selfie_resized_key),
                    IdentificationExtension := some id_extension,
                    SelfieExtension := some selfie_extension }
                ({ statusCode := 200,
                   verificationId := some verification_id,
                   status := some "PROCESSING" },
                 ⟨store.table ++ [item],
                  store.bucket ++ [⟨id_key, id_bytes⟩, ⟨selfie_key, selfie_bytes⟩]⟩)
            | _, _ =>
                ({ statusCode := 500, error := some "Internal server error" }, store)
        | _, _ =>
            ({ statusCode := 500, error := some "Internal server error" }, store)
  | _, _ =>
      ({ statusCode := 400,
         error := some "Missing required field: Missing selfie or identity in the request body" },
       store)

end Upload

/-- A fresh, empty ingress store. -/
def upload_store0 : Upload.UploadStore := ⟨[], []⟩

/-- C8 counterexample: a submission whose identity payload `abc` is present
but not base64-decodable (three alphabet characters) is answered with a 500
internal-server-error, not with the claimed 400 client error; no record and
no image is stored. -/
theorem ingress_undecodable_cex :
    Upload.b64decode "abc" = none ∧
    (Upload.handle_api_request (some "AAAA") (some "abc") "v1" 0 1
        (some "user@example.com") "bucket" upload_store0).1.statusCode = 500 ∧
    (Upload.handle_api_request (some "AAAA") (some "abc") "v1" 0 1
        (some "user@example.com") "bucket" upload_store0).2 = upload_store0 := by
  decide

/-- C8 amended: a submission with a missing or empty image field is answered
with a 400 client error carrying an error message, and no record or image is
stored; a submission whose payloads are present but not decodable is also
rejected without side effects, but with a 500 internal-server-error response
(the decode failure reaches the generic exception handler), not the claimed
400. -/
theorem ingress_validation (selfie identity : Option String) (vid : String)
    (ts ttl : ℚ) (ue : Option String) (bn : String)
    (store : Upload.UploadStore) :
    ((selfie = none ∨ selfie = some "" ∨ identity = none ∨ identity = some "") →
      ((Upload.handle_api_request selfie identity vid ts ttl ue bn store).1.statusCode = 400 ∧
       (Upload.handle_api_request selfie identity vid ts ttl ue bn store).1.error ≠ none ∧
       (Upload.handle_api_request selfie identity vid ts ttl ue bn store).2 = store)) ∧
    (∀ s i, selfie = some s → identity = some i → s ≠ "" → i ≠ "" →
      (Upload.decode_image i = none ∨ Upload.decode_image s = none) →
      ((Upload.handle_api_request selfie identity vid ts ttl ue bn store).1.statusCode = 500 ∧
       (Upload.handle_api_request selfie identity vid ts ttl ue bn store).2 = store)) := by
  constructor
  · rintro (rfl | rfl | rfl | rfl)
    · cases identity <;> simp [Upload.handle_api_request]
    · cases identity <;> simp [Upload.handle_api_request]
    · cases selfie <;> simp [Upload.handle_api_request]
    · cases selfie <;> simp [Upload.handle_api_request]
  · rintro s i rfl rfl hs hi hd
    have hs' : (s == "") = false := by simpa using hs
    have hi' : (i == "") = false := by simpa using hi
    rcases hd with hd | hd
    · unfold Upload.decode_image at hd
      cases hgi : Upload.get_file_info_from_base64 i with
      | none => simp [Upload.handle_api_request, hs', hi', hgi]
      | some p =>
          obtain ⟨ib, ie⟩ := p
          rw [hgi] at hd
          replace hd : Upload.b64decode ib = none := by simpa using hd
          cases hgs : Upload.get_file_info_from_base64 s with
          | none => simp [Upload.handle_api_request, hs', hi', hgi, hgs]
          | some q =>
              obtain ⟨sb, se⟩ := q
              simp [Upload.handle_api_request, hs', hi', hgi, hgs, hd]
    · unfold Upload.decode_image at hd
      cases hgs : Upload.get_file_info_from_base64 s with
      | none =>
          cases hgi : Upload.get_file_info_from_base64 i with
          | none => simp [Upload.handle_api_request, hs', hi', hgi]
          | some p =>
              obtain ⟨ib, ie⟩ := p
              simp [Upload.handle_api_request, hs', hi', hgi, hgs]
      | some q =>
          obtain ⟨sb, se⟩ := q
          rw [hgs] at hd
          replace hd : Upload.b64decode sb = none := by simpa using hd
          cases hgi : Upload.get_file_info_from_base64 i with
          | none => simp [Upload.handle_api_request, hs', hi', hgi]
          | some p =>
              obtain ⟨ib, ie⟩ := p
              cases hbi : Upload.b64decode ib with
              | none => simp [Upload.handle_api_request, hs', hi', hgi, hgs, hbi]
              | some bytes =>
                  simp [Upload.handle_api_request, hs', hi', hgi, hgs, hbi, hd]

/-- Witness for the amended C8 theorem: a missing selfie yields 400 with no
writes, and an undecodable identity payload yields 500 with no writes. -/
theorem ingress_validation_witness :
    ((Upload.handle_api_request none (some "AAAA") "v1" 0 1 none "bucket"
        upload_store0).1.statusCode = 400 ∧
     (Upload.handle_api_request none (some "AAAA") "v1" 0 1 none "bucket"
        upload_store0).1.error ≠ none ∧
     (Upload.handle_api_request none (some "AAAA") "v1" 0 1 none "bucket"
        upload_store0).2 = upload_store0) ∧
    ((Upload.handle_api_request (some "AAAA") (some "abc") "v1" 0 1 none "bucket"
        upload_store0).1.statusCode = 500 ∧
     (Upload.handle_api_request (some "AAAA") (some "abc") "v1" 0 1 none "bucket"
        upload_store0).2 = upload_store0) :=
  ⟨(ingress_validation none (some "AAAA") "v1" 0 1 none "bucket" upload_store0).1
      (Or.inl rfl),
   (ingress_validation (some "AAAA") (some "abc") "v1" 0 1 none "bucket"
      upload_store0).2 "AAAA" "abc" rfl rfl (by decide) (by decide)
      (Or.inl (by decide))⟩

namespace Trigger

/-- The two upload categories `get_file_info_from_key` distinguishes in
`id_trigger_stepfunction_lambda.py` (an S3 key under `identity/` or not). -/
inductive FileType where
  | identity
  | selfie
deriving DecidableEq

/-- The trigger-relevant projection of the shared verification record: the
two upload flags (`identityUploaded` / `selfieUploaded`, an absent attribute
reading as `False` via `item.get`), together with the number of state-machine
executions started so far for this verification. -/
structure TriggerState where
  identityUploaded : Bool
  selfieUploaded : Bool
  startCount : Nat
deriving DecidableEq

/-- The write performed by `update_upload_status` (lines 67-74): `update_item`
sets the arriving file's `...Uploaded` flag. -/
def write_flag (ft : FileType) (s : TriggerState) : TriggerState :=
  match ft with
  | .identity => { s with identityUploaded := true }
  | .selfie => { s with selfieUploaded := true }

/-- The pair returned by `update_upload_status` (lines 76-80): computed from
the snapshot `item` read by the query BEFORE the update, with the arriving
file's own flag substituted in. -/
def upload_flags_seen (ft : FileType) (snapshot : Bool × Bool) : Bool × Bool :=
  (snapshot.1 || ft == FileType.identity, snapshot.2 || ft == FileType.selfie)

/-- The in-flight state of one trigger invocation: which file arrived, a
program counter over its three record-store interactions, and the snapshot
its query returned. -/
structure EventState where
  ft : FileType
  pc : Nat
  snapshot : Bool × Bool
deriving DecidableEq

/-- One atomic record-store interaction of a trigger invocation
(`lambda_handler`, lines 123-181): pc 0 is the query inside
`update_upload_status`, pc 1 its unconditional `update_item`, pc 2 the
handler's both-present check on the returned pair, which starts the state
machine when both flags are seen. -/
def stepEvent (e : EventState) (s : TriggerState) : EventState × TriggerState :=
  match e.pc with
  | 0 => ({ e with pc := 1, snapshot := (s.identityUploaded, s.selfieUploaded) }, s)
  | 1 => ({ e with pc := 2 }, write_flag e.ft s)
  | 2 =>
      let seen := upload_flags_seen e.ft e.snapshot
      ({ e with pc := 3 },
       if seen.1 && seen.2 then { s with startCount := s.startCount + 1 } else s)
  | _ => (e, s)

/-- Interleaved execution of two trigger invocations against the shared
record under a schedule: `true` steps the first event, `false` the second. -/
def runSchedule : List Bool → EventState → EventState → TriggerState → TriggerState
  | [], _, _, s => s
  | b :: rest, ea, eb, s =>
      if b then
        let p := stepEvent ea s
        runSchedule rest p.1 eb p.2
      else
        let p := stepEvent eb s
        runSchedule rest ea p.1 p.2

/-- A fresh record: neither upload flag set, no execution started. -/
def trigger_init : TriggerState := ⟨false, false, 0⟩

/-- The identity-upload arrival event, not yet started. -/
def ev_identity : EventState := ⟨FileType.identity, 0, (false, false)⟩

/-- The selfie-upload arrival event, not yet started. -/
def ev_selfie : EventState := ⟨FileType.selfie, 0, (false, false)⟩

end Trigger

/-- C9 counterexample: under the concurrent interleaving in which both
arrival events run their record query before either performs its update,
both events observe the other flag unset and the state machine is started
zero times — not exactly once as claimed. -/
theorem dual_upload_race_cex :
    (Trigger.runSchedule [true, false, true, false, true, false]
        Trigger.ev_identity Trigger.ev_selfie Trigger.trigger_init).startCount = 0 := by
  decide

/-- C9 amended: for every interleaving of the two arrival events' three
record-store interactions the state machine is started at most once (two
starts are impossible), and in the two non-overlapping (sequential)
schedules it is started exactly once, by the event that observes both flags;
but a racy interleaving can start it zero times, since the read-then-update
sequence is not a conditional update. -/
theorem dual_upload_trigger_starts :
    (∀ f : Fin 6 → Bool, (List.ofFn f).count true = 3 →
      (Trigger.runSchedule (List.ofFn f) Trigger.ev_identity Trigger.ev_selfie
          Trigger.trigger_init).startCount ≤ 1) ∧
    (Trigger.runSchedule [true, true, true, false, false, false]
        Trigger.ev_identity Trigger.ev_selfie Trigger.trigger_init).startCount = 1 ∧
    (Trigger.runSchedule [false, false, false, true, true, true]
        Trigger.ev_identity Trigger.ev_selfie Trigger.trigger_init).startCount = 1 := by
  decide

/-- Witness for the amended C9 theorem at the sequential schedule, which
satisfies the fairness hypothesis (each event is scheduled three times). -/
theorem dual_upload_trigger_starts_witness :
    (List.ofFn (fun j : Fin 6 => decide (j.val < 3))).count true = 3 ∧
    (Trigger.runSchedule (List.ofFn (fun j : Fin 6 => decide (j.val < 3)))
        Trigger.ev_identity Trigger.ev_selfie Trigger.trigger_init).startCount ≤ 1 :=
  ⟨by decide,
   dual_upload_trigger_starts.1 (fun j : Fin 6 => decide (j.val < 3)) (by decide)⟩

end IdVerify
